import Mathlib

/-!
Shallow embedding of `tvtv2xmltv_cron.py`: a cron script that fetches a TV
channel lineup and a multi-day program grid from tvtv.us and renders an
XMLTV guide file.  Python strings are modelled as `List Char`, Python
exceptions as an explicit error type, and the machine clock, the network
and the filesystem as explicit parameters of the run function.
-/

namespace Tvtv

/-- Python strings are modelled as lists of characters. -/
abbrev Str := List Char

/-- Python `str.replace` for a single-character pattern. -/
def pyReplace (s : Str) (c : Char) (rep : Str) : Str :=
  s.flatMap fun x => if x = c then rep else [x]

/-- `xml.sax.saxutils.escape` with default entities (line 7 import, used at
lines 70-72 and 112-114): replaces `&` first, then `<`, then `>`, and
nothing else — in particular `"` is left alone. -/
def escape (s : Str) : Str :=
  pyReplace (pyReplace (pyReplace s '&' ("&amp;".toList)) '<' ("&lt;".toList)) '>' ("&gt;".toList)

/-- Character-wise description of `escape` (proved equal to it below). -/
def xmlEntity (c : Char) : Str :=
  if c = '&' then "&amp;".toList
  else if c = '<' then "&lt;".toList
  else if c = '>' then "&gt;".toList
  else [c]

/-- The escaping claim C5 asserts (spec wording): all four of `& < > "`
become their entity forms. -/
def claimedEscape (s : Str) : Str :=
  s.flatMap fun c =>
    if c = '&' then "&amp;".toList
    else if c = '<' then "&lt;".toList
    else if c = '>' then "&gt;".toList
    else if c = '"' then "&quot;".toList
    else [c]

/-- Python `sep.join(items)`. -/
def pyJoinWith (sep : Str) : List Str → Str
  | [] => []
  | [s] => s
  | s :: rest => s ++ sep ++ pyJoinWith sep rest

/-- Python `needle in haystack` on strings: substring containment. -/
def containsSub (hay needle : Str) : Bool :=
  hay.tails.any fun t => needle.isPrefixOf t

/-- Days since 1970-01-01 of a Gregorian date (the standard civil-to-days
computation Python's `datetime` agrees with). -/
def daysFromCivil (y m d : Int) : Int :=
  let yy := y - (if m ≤ 2 then 1 else 0)
  let era := yy / 400
  let yoe := yy - era * 400
  let doy := (153 * (m + (if 2 < m then -3 else 9)) + 2) / 5 + d - 1
  let doe := yoe * 365 + yoe / 4 - yoe / 100 + doy
  era * 146097 + doe - 719468

/-- Inverse of `daysFromCivil`: the Gregorian (year, month, day). -/
def civilFromDays (z0 : Int) : Int × Int × Int :=
  let z := z0 + 719468
  let era := z / 146097
  let doe := z - era * 146097
  let yoe := (doe - doe / 1460 + doe / 36524 - doe / 146096) / 365
  let y := yoe + era * 400
  let doy := doe - (365 * yoe + yoe / 4 - yoe / 100)
  let mp := (5 * doy + 2) / 153
  let d := doy - (153 * mp + 2) / 5 + 1
  let m := mp + (if mp < 10 then 3 else -9)
  (y + (if m ≤ 2 then 1 else 0), m, d)

/-- Zero-padded decimal rendering of width `w` (`strftime` style). -/
def padNat (w : Nat) (n : Nat) : Str :=
  let s := (Nat.repr n).toList
  List.replicate (w - s.length) '0' ++ s

/-- `%Y-%m-%d` of a day count. -/
def fmtDate (days : Int) : Str :=
  let c := civilFromDays days
  padNat 4 c.1.toNat ++ "-".toList ++ padNat 2 c.2.1.toNat ++ "-".toList ++ padNat 2 c.2.2.toNat

/-- `%Y%m%d%H%M%S` of a wall-clock time given in seconds. -/
def fmt14 (wall : Int) : Str :=
  let c := civilFromDays (wall / 86400)
  let sod := (wall % 86400).toNat
  padNat 4 c.1.toNat ++ padNat 2 c.2.1.toNat ++ padNat 2 c.2.2.toNat ++
    padNat 2 (sod / 3600) ++ padNat 2 (sod % 3600 / 60) ++ padNat 2 (sod % 60)

/-- `%z`: `±HHMM` from a UTC offset in seconds. -/
def fmtOff (off : Int) : Str :=
  let a := off.natAbs
  (if off < 0 then "-".toList else "+".toList) ++ padNat 2 (a / 3600) ++ padNat 2 (a % 3600 / 60)

def digitVal (c : Char) : Option Nat :=
  if '0' ≤ c ∧ c ≤ '9' then some (c.toNat - '0'.toNat) else none

def parseDigitsAux : Str → Nat → Option Nat
  | [], acc => some acc
  | c :: rest, acc =>
    match digitVal c with
    | some d => parseDigitsAux rest (acc * 10 + d)
    | none => none

def parseDigits : Str → Option Nat
  | [] => none
  | l => parseDigitsAux l 0

/-- Python `int(s)` on a string: optional sign and decimal digits; anything
else raises `ValueError`, modelled as `none`. -/
def parsePyInt (s : Str) : Option Int :=
  match s with
  | '-' :: rest => (parseDigits rest).map fun n => -(n : Int)
  | '+' :: rest => (parseDigits rest).map fun n => (n : Int)
  | _ => (parseDigits s).map fun n => (n : Int)

def isLeap (y : Int) : Bool :=
  (y % 4 == 0 && y % 100 != 0) || y % 400 == 0

def daysInMonth (y m : Int) : Int :=
  if m = 2 then (if isLeap y then 29 else 28)
  else if m = 4 ∨ m = 6 ∨ m = 9 ∨ m = 11 then 30
  else 31

def parse2 (a b : Char) : Option Nat :=
  match digitVal a, digitVal b with
  | some x, some y => some (x * 10 + y)
  | _, _ => none

def parse4 (a b c d : Char) : Option Nat :=
  match parse2 a b, parse2 c d with
  | some x, some y => some (x * 100 + y)
  | _, _ => none

/-- `datetime.fromisoformat` restricted to the shape this program feeds it:
`YYYY-MM-DDTHH:MM:SS±HH:MM` (the grid's ISO-8601 `...Z` timestamps after
`.replace('Z', '+00:00')` at line 117).  Returns the UTC instant in
seconds since the epoch; `none` models `ValueError`. -/
def fromisoformat (s : Str) : Option Int :=
  match s with
  | [y1, y2, y3, y4, s1, mo1, mo2, s2, d1, d2, t1, h1, h2, c1, mi1, mi2, c2, se1, se2, sg, oh1, oh2, c3, om1, om2] =>
    match parse4 y1 y2 y3 y4, parse2 mo1 mo2, parse2 d1 d2, parse2 h1 h2, parse2 mi1 mi2, parse2 se1 se2, parse2 oh1 oh2, parse2 om1 om2 with
    | some y, some mo, some d, some h, some mi, some se, some oh, some om =>
      if s1 = '-' ∧ s2 = '-' ∧ t1 = 'T' ∧ c1 = ':' ∧ c2 = ':' ∧ c3 = ':' ∧ (sg = '+' ∨ sg = '-') ∧
          1 ≤ mo ∧ mo ≤ 12 ∧ 1 ≤ d ∧ (d : Int) ≤ daysInMonth (y : Int) (mo : Int) ∧
          h < 24 ∧ mi < 60 ∧ se < 60 ∧ oh < 24 ∧ om < 60 then
        let off : Int := (if sg = '-' then -1 else 1) * ((oh : Int) * 3600 + (om : Int) * 60)
        some (daysFromCivil (y : Int) (mo : Int) (d : Int) * 86400 +
          (h : Int) * 3600 + (mi : Int) * 60 + (se : Int) - off)
      else none
    | _, _, _, _, _, _, _, _ => none
  | _ => none

/-- A timezone in the `zoneinfo` sense, as this program observes it:
`offAtInstant` is the UTC offset (seconds) `astimezone` attaches when
converting an absolute instant, and `offAtWall` is the offset that `%z`
formatting recomputes from a wall-clock reading (fold elided, so the model
is faithful at all unambiguous wall times). -/
structure Tz where
  offAtInstant : Int → Int
  offAtWall : Int → Int

/-- The value rendered by `strftime('%Y%m%d%H%M%S %z')`: the wall-clock
seconds plus the UTC offset printed beside them.  The 14-digit field is
strictly monotone in `wall`, so comparisons of rendered timestamps are
comparisons of `wall`. -/
structure RenderedTs where
  wall : Int
  off : Int
  deriving DecidableEq

/-- Line 118: `t_start_utc.astimezone(local_tz)` — the local wall clock. -/
def astimezoneWall (tz : Tz) (u : Int) : Int := u + tz.offAtInstant u

/-- `t_start_local` as rendered at line 123. -/
def startTs (tz : Tz) (u : Int) : RenderedTs :=
  ⟨astimezoneWall tz u, tz.offAtWall (astimezoneWall tz u)⟩

/-- Lines 121 and 124: `t_end_local = t_start_local + timedelta(minutes=run_time)`.
Python datetime addition is wall-clock addition within the same tzinfo; the
offset is recomputed from the new wall reading when formatting. -/
def stopTs (tz : Tz) (u : Int) (rt : Int) : RenderedTs :=
  ⟨astimezoneWall tz u + 60 * rt, tz.offAtWall (astimezoneWall tz u + 60 * rt)⟩

/-- The absolute instant a reader of the rendered `YYYYMMDDHHMMSS ±HHMM`
timestamp reconstructs from it. -/
def instantOfTs (t : RenderedTs) : Int := t.wall - t.off

def fmtTs (t : RenderedTs) : Str := fmt14 t.wall ++ " ".toList ++ fmtOff t.off

/-- JSON scalar values as far as they matter to this program. -/
inductive Json where
  | null
  | str (s : Str)
  | num (n : Int)
  deriving DecidableEq

/-- One lineup channel record (fields read at lines 68-72); absent fields
arrive as `""` via `.get(key, "")`. -/
structure Channel where
  stationId : Str
  channelNumber : Str
  stationCallSign : Str
  logo : Str
  deriving DecidableEq

/-- One grid program record (fields read at lines 112-120).  `title`,
`subtitle`, `type` and `flags` default via `.get`; `startTime` is accessed
as `program['startTime']` (absent key = `none`) and `runTime` via
`.get('runTime', 0)` (absent key = `none`, meaning the default `0`). -/
structure Program where
  title : Str
  subtitle : Str
  progType : Str
  flags : List Str
  startTime : Option Json
  runTime : Option Json
  deriving DecidableEq

def xmlDecl : Str := "<?xml version=\"1.0\" encoding=\"UTF-8\"?>".toList

/-- Line 48: the root element open tag, carrying the generation timestamp. -/
def tvOpen (dateStr : Str) : Str :=
  "<tv date=\"".toList ++ dateStr ++
    "\" source-info-url=\"https://www.tvtv.us\" source-info-name=\"tvtv2xmltv\">".toList

def tvClose : Str := "</tv>".toList

/-- Lines 70 and 74: the channel element id is the escaped channel number
(also the first display-name value). -/
def channelIdAttr (c : Channel) : Str := escape c.channelNumber

/-- Line 76: the second display-name is the escaped call sign. -/
def secondDisplayName (c : Channel) : Str := escape c.stationCallSign

/-- Line 126: the programme element's channel attribute is the raw channel
number (`channel.get("channelNumber", "")`, not escaped). -/
def progChannelAttr (c : Channel) : Str := c.channelNumber

/-- Lines 70-79: one channel block. -/
def renderChannel (c : Channel) : List Str :=
  let channelNum := channelIdAttr c
  let callSign := secondDisplayName c
  let logoUrl := escape c.logo
  ["  <channel id=\"".toList ++ channelNum ++ "\">".toList,
   "    <display-name>".toList ++ channelNum ++ "</display-name>".toList,
   "    <display-name>".toList ++ callSign ++ "</display-name>".toList] ++
  (if logoUrl ≠ [] then
    ["    <icon src=\"https://www.tvtv.us".toList ++ logoUrl ++ "\" />".toList]
   else []) ++
  ["  </channel>".toList]

def catMovieLine : Str := "      <category lang=\"en\">movie</category>".toList
def catNewsLine : Str := "      <category lang=\"en\">news</category>".toList
def catSportsLine : Str := "      <category lang=\"en\">sports</category>".toList
def catKidsLine : Str := "      <category lang=\"en\">kids</category>".toList
def videoHdLine : Str := "      <video><quality>HDTV</quality></video>".toList
def audioStereoLine : Str := "      <audio><stereo>stereo</stereo></audio>".toList
def newMarkerLine : Str := "      <new />".toList

/-- Lines 130-143: the category and marker block.  `ptype` is the escaped
type string; `flagsStr` is `", ".join(flags)` (line 115), and each test is
Python's substring `in` on that joined string. -/
def typeAndFlagLines (ptype : Str) (flagsStr : Str) : List Str :=
  (if ptype = "M".toList then [catMovieLine] else []) ++
  (if ptype = "N".toList then [catNewsLine] else []) ++
  (if ptype = "S".toList then [catSportsLine] else []) ++
  (if containsSub flagsStr ("EI".toList) then [catKidsLine] else []) ++
  (if containsSub flagsStr ("HD".toList) then [videoHdLine] else []) ++
  (if containsSub flagsStr ("Stereo".toList) then [audioStereoLine] else []) ++
  (if containsSub flagsStr ("New".toList) then [newMarkerLine] else [])

/-- The Python exceptions this code path can raise. -/
inductive PyErr where
  | valueError
  | typeError
  | keyError
  | attributeError
  deriving DecidableEq

/-- Line 146: the except clause catches exactly
`(ValueError, TypeError, KeyError)`. -/
def caught : PyErr → Bool
  | .valueError => true
  | .typeError => true
  | .keyError => true
  | .attributeError => false

/-- Line 117: `program['startTime'].replace('Z', '+00:00')` then
`datetime.fromisoformat(...)`: a missing key raises `KeyError`; a
non-string value has no `.replace` and raises `AttributeError`; a string
that does not parse raises `ValueError`. -/
def pyStartInstant (j : Option Json) : Except PyErr Int :=
  match j with
  | none => .error .keyError
  | some .null => .error .attributeError
  | some (.num _) => .error .attributeError
  | some (.str s) =>
    match fromisoformat (pyReplace s 'Z' ("+00:00".toList)) with
    | some u => .ok u
    | none => .error .valueError

/-- Line 120: `int(program.get('runTime', 0))`: absent key gives `0`; an
int passes through; a numeric string parses; anything else raises
(`ValueError` for a bad string, `TypeError` for `None`). -/
def pyRunTime (j : Option Json) : Except PyErr Int :=
  match j with
  | none => .ok 0
  | some (.num n) => .ok n
  | some (.str s) =>
    match parsePyInt s with
    | some n => .ok n
    | none => .error .valueError
  | some .null => .error .typeError

/-- Lines 111-144: render one programme block, or the exception the body
raises.  All fallible work happens before the first append, so a raising
record contributes no lines at all. -/
def renderProgramme (tz : Tz) (chanNum : Str) (p : Program) : Except PyErr (List Str) := do
  let title := escape p.title
  let subtitle := escape p.subtitle
  let ptype := escape p.progType
  let flagsStr := pyJoinWith (", ".toList) p.flags
  let u ← pyStartInstant p.startTime
  let rt ← pyRunTime p.runTime
  let sTs := startTs tz u
  let eTs := stopTs tz u rt
  pure ([("    <programme start=\"".toList ++ fmtTs sTs ++ "\" stop=\"".toList ++ fmtTs eTs ++
          "\" channel=\"".toList ++ chanNum ++ "\">".toList),
         ("      <title lang=\"en\">".toList ++ title ++ "</title>".toList)] ++
        (if subtitle ≠ [] then
          ["      <sub-title lang=\"en\">".toList ++ subtitle ++ "</sub-title>".toList]
         else []) ++
        typeAndFlagLines ptype flagsStr ++
        ["    </programme>".toList])

/-- Lines 101-103: `if batch_data: listing_data.extend(batch_data)` — a
failed (or empty, hence falsy) batch contributes nothing; successful batch
arrays are concatenated in batch order. -/
def mergeBatches (bs : List (Option (List (List Program)))) : List (List Program) :=
  bs.flatMap fun b => b.getD []

/-- Lines 106-108: positional pairing of lineup channels with merged grid
slices; the `break` at `index >= len(listing_data)` together with the loop
over `lineup_data` makes this exactly `zip` (stop at the shorter list). -/
def dayPairs (lineup : List Channel) (listing : List (List Program)) :
    List (Channel × List Program) :=
  lineup.zip listing

/-- Lines 110-148: process one channel's slice; caught exceptions skip just
that record (`continue`), anything else propagates. -/
def processSlice (tz : Tz) (chanNum : Str) : List Program → Except PyErr (List Str)
  | [] => .ok []
  | p :: rest =>
    match renderProgramme tz chanNum p with
    | .ok ls => (processSlice tz chanNum rest).map fun more => ls ++ more
    | .error e => if caught e then processSlice tz chanNum rest else .error e

def processPairs (tz : Tz) : List (Channel × List Program) → Except PyErr (List Str)
  | [] => .ok []
  | (c, slice) :: rest =>
    match processSlice tz (progChannelAttr c) slice with
    | .ok ls => (processPairs tz rest).map fun more => ls ++ more
    | .error e => .error e

/-- One day's programme lines, from that day's per-batch fetch results. -/
def dayLines (tz : Tz) (lineup : List Channel)
    (batchResults : List (Option (List (List Program)))) : Except PyErr (List Str) :=
  processPairs tz (dayPairs lineup (mergeBatches batchResults))

/-- Lines 84-148: all days in order; an uncaught exception aborts the rest. -/
def guideLines (tz : Tz) (lineup : List Channel) :
    List (List (Option (List (List Program)))) → Except PyErr (List Str)
  | [] => .ok []
  | d :: rest =>
    match dayLines tz lineup d with
    | .ok ls => (guideLines tz lineup rest).map fun more => ls ++ more
    | .error e => .error e

/-- Helper for `chunk20`, structurally recursive on a fuel argument; the
fuel only needs to bound the list length, and `chunk20` passes exactly the
length, so the `0, _ :: _` case is never reached. -/
def chunkGo {α : Type} : Nat → List α → List (List α)
  | _, [] => []
  | 0, _ :: _ => []
  | fuel + 1, a :: rest => (a :: rest.take 19) :: chunkGo fuel (rest.drop 19)

/-- Lines 95-96: `for i in range(0, channel_count, 20)` with slices
`all_channels[i:i+20]`: split the channel-id list into batches of at most
20, in order. -/
def chunk20 {α : Type} (l : List α) : List (List α) := chunkGo l.length l

/-- Lines 85 and 88: `datetime.now() + timedelta(days=day_offset)` then
`strftime('%Y-%m-%dT04:00:00.000Z')`.  `sysNow` is the naive system-local
clock reading in seconds since the epoch of that clock; naive datetime
arithmetic shifts the date by exactly `day_offset` days, and the
time-of-day with its `Z` is a literal in the format string. -/
def windowStartStr (sysNow : Int) (d : Nat) : Str :=
  fmtDate ((sysNow + 86400 * (d : Int)) / 86400) ++ "T04:00:00.000Z".toList

/-- Lines 86 and 89: the next day's date with literal `03:59:00.000Z`. -/
def windowEndStr (sysNow : Int) (d : Nat) : Str :=
  fmtDate ((sysNow + 86400 * ((d : Int) + 1)) / 86400) ++ "T03:59:00.000Z".toList

/-- The UTC instant denoted by `windowStartStr` (its suffix reads 04:00Z). -/
def windowStartInstant (sysNow : Int) (d : Nat) : Int :=
  ((sysNow + 86400 * (d : Int)) / 86400) * 86400 + 14400

/-- The UTC instant denoted by `windowEndStr` (03:59Z). -/
def windowEndInstant (sysNow : Int) (d : Nat) : Int :=
  ((sysNow + 86400 * ((d : Int) + 1)) / 86400) * 86400 + 14340

/-- What claim C3 asserts (spec wording): day offset `d` starts at the
current UTC day's 04:00Z plus `d` days. -/
def utcWindowStart (utcNow : Int) (d : Nat) : Int :=
  (utcNow / 86400 + (d : Int)) * 86400 + 14400

/-- Spec wording: day offset `d` ends at tomorrow-plus-`d`'s 03:59Z. -/
def utcWindowEnd (utcNow : Int) (d : Nat) : Int :=
  (utcNow / 86400 + (d : Int) + 1) * 86400 + 14340

/-- Line 98: one grid request URL per batch
(`channels_str = ",".join(map(str, channels_batch))`). -/
def gridUrl (lineupId : Str) (startStr endStr : Str) (batch : List Str) : Str :=
  "https://www.tvtv.us/api/v1/lineup/".toList ++ lineupId ++ "/grid/".toList ++ startStr ++
    "/".toList ++ endStr ++ "/".toList ++ pyJoinWith (",".toList) batch

/-- Lines 95-101: the grid requests issued for one day. -/
def dayRequests (lineupId : Str) (sysNow : Int) (d : Nat) (ids : List Str) : List Str :=
  (chunk20 ids).map (gridUrl lineupId (windowStartStr sysNow d) (windowEndStr sysNow d))

/-- The environment a run observes: whether the timezone database resolves
the configured zone (line 34), the lineup fetch result (line 53, `none` =
transport or JSON failure), each day/batch grid fetch result (line 101),
and whether the final and the wrapper-only file writes succeed. -/
structure Env where
  tzFound : Bool
  lineupData : Option (List Channel)
  fetchGrid : Nat → Nat → Option (List (List Program))
  finalWriteOk : Bool
  wrapperWriteOk : Bool

/-- How a run ends: `exitWith code file` with the file actually written, if
any, or an uncaught exception (traceback, nothing written). -/
inductive Outcome where
  | exitWith (code : Nat) (file : Option (List Str))
  | crash (e : PyErr)
  deriving DecidableEq

/-- Python truthiness of `lineup_data` at line 55: `None` and `[]` both
take the failure branch. -/
def pyTruthyList : Option (List Channel) → Option (List Channel)
  | none => none
  | some [] => none
  | some (c :: rest) => some (c :: rest)

/-- Lines 47-48 plus 56: the declaration and the (empty) root element. -/
def wrapperLines (nowStr : Str) : List Str := [xmlDecl, tvOpen nowStr, tvClose]

/-- Line 95 batching of `all_channels` (the stationIds, line 68) and the
line 101 fetch results for day `d`: one result per issued request. -/
def dayBatchResults (env : Env) (lineup : List Channel) (d : Nat) :
    List (Option (List (List Program))) :=
  (List.range (chunk20 (lineup.map Channel.stationId)).length).map (env.fetchGrid d)

def runGuide (tz : Tz) (env : Env) (lineup : List Channel) (maxDays : Nat) :
    Except PyErr (List Str) :=
  guideLines tz lineup ((List.range maxDays).map (dayBatchResults env lineup))

/-- `main` (lines 30-161) as a function of configuration and environment:
`days` is the `DAYS` constant (clamped by `min(DAYS, 8)` at line 82),
`nowStr` the rendered start timestamp of line 45. -/
def run (tz : Tz) (days : Nat) (nowStr : Str) (env : Env) : Outcome :=
  if env.tzFound = false then .exitWith 1 none
  else
    match pyTruthyList env.lineupData with
    | none => .exitWith 1 (if env.wrapperWriteOk then some (wrapperLines nowStr) else none)
    | some lineup =>
      let chanLines := lineup.flatMap renderChannel
      let maxDays := min days 8
      match runGuide tz env lineup maxDays with
      | .error e => .crash e
      | .ok progLines =>
        if env.finalWriteOk then
          .exitWith 0 (some ([xmlDecl, tvOpen nowStr] ++ chanLines ++ progLines ++ [tvClose]))
        else .exitWith 1 none

/-! ### Helper lemmas about `escape` -/

theorem escape_nil : escape [] = [] := rfl

theorem escape_cons (a : Char) (t : Str) : escape (a :: t) = xmlEntity a ++ escape t := by
  by_cases h1 : a = '&'
  · subst h1
    simp only [escape, pyReplace, List.flatMap_cons, List.flatMap_append, xmlEntity]
    rfl
  · by_cases h2 : a = '<'
    · subst h2
      simp only [escape, pyReplace, List.flatMap_cons, List.flatMap_append, xmlEntity]
      rfl
    · by_cases h3 : a = '>'
      · subst h3
        simp only [escape, pyReplace, List.flatMap_cons, List.flatMap_append, xmlEntity]
        rfl
      · simp only [escape, pyReplace, List.flatMap_cons, List.flatMap_append, xmlEntity,
          if_neg h1, if_neg h2, if_neg h3]
        rfl

/-- The three sequential `str.replace` passes of `saxutils.escape` act
character by character. -/
theorem escape_eq_flatMap (s : Str) : escape s = s.flatMap xmlEntity := by
  induction s with
  | nil => rfl
  | cons a t ih => rw [escape_cons, List.flatMap_cons, ih]

theorem xmlEntity_length_pos (c : Char) : 1 ≤ (xmlEntity c).length := by
  by_cases h1 : c = '&' <;> by_cases h2 : c = '<' <;> by_cases h3 : c = '>' <;>
    simp [xmlEntity, h1, h2, h3]

theorem xmlEntity_length_of_special (c : Char)
    (h : c = '&' ∨ c = '<' ∨ c = '>') : 4 ≤ (xmlEntity c).length := by
  rcases h with h | h | h <;> subst h <;> decide

theorem length_le_length_escape (s : Str) : s.length ≤ (escape s).length := by
  induction s with
  | nil => simp [escape_nil]
  | cons a t ih =>
    rw [escape_cons]
    have := xmlEntity_length_pos a
    simp only [List.length_append, List.length_cons]
    omega

/-- `escape` is the identity exactly on strings with no markup-special
character. -/
theorem escape_eq_self_iff (s : Str) :
    escape s = s ↔ ∀ ch ∈ s, ch ≠ '&' ∧ ch ≠ '<' ∧ ch ≠ '>' := by
  induction s with
  | nil => simp [escape_nil]
  | cons a t ih =>
    rw [escape_cons]
    by_cases hs : a = '&' ∨ a = '<' ∨ a = '>'
    · constructor
      · intro h
        exfalso
        have hlen := congrArg List.length h
        have h4 := xmlEntity_length_of_special a hs
        have h5 := length_le_length_escape t
        simp only [List.length_append, List.length_cons] at hlen
        omega
      · intro h
        exfalso
        have := (h a (List.mem_cons_self a t))
        rcases hs with hs | hs | hs <;> exact absurd hs (by tauto)
    · push_neg at hs
      have hent : xmlEntity a = [a] := by
        simp [xmlEntity, hs.1, hs.2.1, hs.2.2]
      rw [hent]
      simp only [List.cons_append, List.nil_append, List.cons_eq_cons, true_and]
      constructor
      · intro ht ch hch
        rcases List.mem_cons.mp hch with rfl | hch
        · exact hs
        · exact (ih.mp ht) ch hch
      · intro h
        exact ih.mpr fun ch hch => h ch (List.mem_cons_of_mem a hch)

/-- `escape s` is a plain single character exactly when `s` is that
character (entity expansions are at least four characters long). -/
theorem escape_eq_of_plain (c : Char) (hc : xmlEntity c = [c]) (s : Str) :
    escape s = [c] ↔ s = [c] := by
  constructor
  · intro h
    match s with
    | [] => exact absurd h (by simp [escape_nil])
    | a :: t =>
      rw [escape_cons] at h
      have hlen := congrArg List.length h
      have h1 := xmlEntity_length_pos a
      have h2 := length_le_length_escape t
      simp only [List.length_append, List.length_cons, List.length_nil] at hlen
      have he1 : (xmlEntity a).length = 1 := by omega
      have he2 : (escape t).length = 0 := by omega
      have ht : t = [] := by
        have := List.length_eq_zero.mp he2
        have h3 := length_le_length_escape t
        rw [this] at h3
        simpa using List.length_eq_zero.mp (by omega)
      subst ht
      have hea : xmlEntity a = [a] := by
        by_cases h1a : a = '&'
        · subst h1a; simp [xmlEntity] at he1
        · by_cases h2a : a = '<'
          · subst h2a; simp [xmlEntity] at he1
          · by_cases h3a : a = '>'
            · subst h3a; simp [xmlEntity] at he1
            · simp [xmlEntity, h1a, h2a, h3a]
      rw [hea, escape_nil, List.append_nil] at h
      rw [h]
  · rintro rfl
    rw [escape_cons, escape_nil, hc]
    rfl

/-! ### Claims C1 and C5 -/

/-- Claim C1 counterexample: for a channel whose `channelNumber` contains
`&`, the channel element's id attribute (escaped, line 70/74) differs from
the programme elements' channel attribute (raw, line 126), so the claimed
identity fails. -/
theorem claim_C1_counterexample :
    channelIdAttr ⟨"100".toList, "2&3".toList, "AMP".toList, []⟩ ≠
      progChannelAttr ⟨"100".toList, "2&3".toList, "AMP".toList, []⟩ := by decide

/-- Claim C1 (amended): the channel element's id attribute is the escaped
`channelNumber` while the programme elements' channel attribute is the raw
`channelNumber`; they are identical exactly when the channel number
contains none of `&`, `<`, `>`. -/
theorem claim_C1_amended (c : Channel) :
    channelIdAttr c = progChannelAttr c ↔
      ∀ ch ∈ c.channelNumber, ch ≠ '&' ∧ ch ≠ '<' ∧ ch ≠ '>' :=
  escape_eq_self_iff c.channelNumber

/-- Witness for C1 at an ordinary channel number. -/
theorem claim_C1_witness :
    channelIdAttr ⟨"100".toList, "5.1".toList, "WXYZ".toList, []⟩ =
      progChannelAttr ⟨"100".toList, "5.1".toList, "WXYZ".toList, []⟩ :=
  (claim_C1_amended ⟨"100".toList, "5.1".toList, "WXYZ".toList, []⟩).mpr (by decide)

/-- Claim C5 counterexample: for a channel number consisting of the
double-quote character, the rendered id is NOT the quote-escaped form the
claim asserts (`saxutils.escape` leaves `"` alone). -/
theorem claim_C5_counterexample :
    channelIdAttr ⟨[], "\"".toList, [], []⟩ ≠ claimedEscape ("\"".toList) := by decide

/-- Claim C5 (amended): the rendered channel id and both display-name
values equal the raw `channelNumber` and `callSign` with each of `&`, `<`,
`>` replaced by its entity form and every other character — including
`"` — left unchanged. -/
theorem claim_C5_amended (c : Channel) :
    channelIdAttr c = c.channelNumber.flatMap xmlEntity ∧
    secondDisplayName c = c.stationCallSign.flatMap xmlEntity ∧
    (renderChannel c).head? =
      some ("  <channel id=\"".toList ++ c.channelNumber.flatMap xmlEntity ++ "\">".toList) ∧
    (renderChannel c)[1]? =
      some ("    <display-name>".toList ++ c.channelNumber.flatMap xmlEntity ++
        "</display-name>".toList) ∧
    (renderChannel c)[2]? =
      some ("    <display-name>".toList ++ c.stationCallSign.flatMap xmlEntity ++
        "</display-name>".toList) ∧
    xmlEntity '&' = "&amp;".toList ∧ xmlEntity '<' = "&lt;".toList ∧
    xmlEntity '>' = "&gt;".toList ∧
    ∀ ch : Char, ch = '&' ∨ ch = '<' ∨ ch = '>' ∨ xmlEntity ch = [ch] := by
  refine ⟨escape_eq_flatMap _, escape_eq_flatMap _, ?_, ?_, ?_, by decide, by decide, by decide, ?_⟩
  · simp [renderChannel, channelIdAttr, escape_eq_flatMap]
  · simp [renderChannel, channelIdAttr, escape_eq_flatMap]
  · simp [renderChannel, secondDisplayName, escape_eq_flatMap]
  · intro ch
    by_cases h1 : ch = '&'
    · exact Or.inl h1
    · by_cases h2 : ch = '<'
      · exact Or.inr (Or.inl h2)
      · by_cases h3 : ch = '>'
        · exact Or.inr (Or.inr (Or.inl h3))
        · exact Or.inr (Or.inr (Or.inr (by simp [xmlEntity, h1, h2, h3])))

/-! ### Helper lemmas about substring search and joining -/

theorem containsSub_correct (hay needle : Str) :
    containsSub hay needle = true ↔ needle <:+: hay := by
  rw [List.infix_iff_prefix_suffix]
  simp only [containsSub, List.any_eq_true, List.mem_tails, List.isPrefixOf_iff_prefix]
  exact ⟨fun ⟨t, h1, h2⟩ => ⟨t, h2, h1⟩, fun ⟨t, h1, h2⟩ => ⟨t, h2, h1⟩⟩

theorem infix_pyJoinWith (sep f : Str) :
    ∀ flags : List Str, f ∈ flags → f <:+: pyJoinWith sep flags
  | [], hf => absurd hf (List.not_mem_nil f)
  | [a], hf => by
    rcases List.mem_singleton.mp hf with rfl
    exact List.infix_refl (pyJoinWith sep [f])
  | a :: b :: rest, hf => by
    rcases List.mem_cons.mp hf with rfl | hf
    · exact ⟨[], sep ++ pyJoinWith sep (b :: rest), by simp [pyJoinWith]⟩
    · rcases infix_pyJoinWith sep f (b :: rest) hf with ⟨u, v, huv⟩
      exact ⟨(a ++ sep) ++ u, v, by simp only [pyJoinWith, ← huv, List.append_assoc]⟩

/-- Every flag actually in the list occurs as a substring of the joined
flags string (the converse is false, which is what breaks claim C4). -/
theorem containsSub_pyJoinWith (sep : Str) (flags : List Str) (f : Str) (hf : f ∈ flags) :
    containsSub (pyJoinWith sep flags) f = true :=
  (containsSub_correct _ _).mpr (infix_pyJoinWith sep f flags hf)

theorem mem_ite_singleton {x a : Str} {c : Prop} [Decidable c] :
    (x ∈ if c then [a] else ([] : List Str)) ↔ c ∧ x = a := by
  by_cases h : c <;> simp [h]

/-- Membership in the category/marker block, disjunct by disjunct. -/
theorem mem_typeAndFlagLines (x ptype flagsStr : Str) :
    x ∈ typeAndFlagLines ptype flagsStr ↔
      (ptype = "M".toList ∧ x = catMovieLine) ∨
      (ptype = "N".toList ∧ x = catNewsLine) ∨
      (ptype = "S".toList ∧ x = catSportsLine) ∨
      (containsSub flagsStr ("EI".toList) = true ∧ x = catKidsLine) ∨
      (containsSub flagsStr ("HD".toList) = true ∧ x = videoHdLine) ∨
      (containsSub flagsStr ("Stereo".toList) = true ∧ x = audioStereoLine) ∨
      (containsSub flagsStr ("New".toList) = true ∧ x = newMarkerLine) := by
  simp only [typeAndFlagLines, List.mem_append, mem_ite_singleton, or_assoc]

/-- The lines a fallible render contributed, with errors giving nothing
(used only to state concrete evaluations). -/
def okLines : Except PyErr (List Str) → List Str
  | .ok ls => ls
  | .error _ => []

/-- The all-zero-offset timezone (UTC: offset 0 at every instant and every
wall reading). -/
def tzUTC : Tz := ⟨fun _ => 0, fun _ => 0⟩

/-- A well-formed program record whose single flag `"VEIL"` merely
contains `"EI"` as a substring. -/
def pFlagVeil : Program :=
  ⟨"T".toList, [], [], ["VEIL".toList],
    some (.str "2024-05-01T12:00:00Z".toList), some (.num 30)⟩

/-! ### Claim C4 -/

/-- Claim C4 counterexample: this record's flag set does not contain
`"EI"`, yet the kids category is emitted, because line 115 joins the flags
into one string and line 136 tests `"EI" in flags` — a substring test. -/
theorem claim_C4_counterexample :
    catKidsLine ∈ okLines (renderProgramme tzUTC ("5.1".toList) pFlagVeil) ∧
    "EI".toList ∉ pFlagVeil.flags := by
  exact ⟨by decide, by decide⟩

/-- Claim C4 (amended): in the category/marker block of a rendered
program, the type categories are exactly determined by the raw type code
(`M`/`N`/`S`, any other code emits none), while the kids category and the
HDTV/stereo/new markers are each emitted exactly when the corresponding
token occurs as a substring of the comma-joined flags string; membership
of the token in the flag list implies that substring occurrence, but not
conversely. -/
theorem claim_C4_amended (p : Program) :
    (catMovieLine ∈ typeAndFlagLines (escape p.progType) (pyJoinWith (", ".toList) p.flags) ↔
      p.progType = "M".toList) ∧
    (catNewsLine ∈ typeAndFlagLines (escape p.progType) (pyJoinWith (", ".toList) p.flags) ↔
      p.progType = "N".toList) ∧
    (catSportsLine ∈ typeAndFlagLines (escape p.progType) (pyJoinWith (", ".toList) p.flags) ↔
      p.progType = "S".toList) ∧
    (catKidsLine ∈ typeAndFlagLines (escape p.progType) (pyJoinWith (", ".toList) p.flags) ↔
      containsSub (pyJoinWith (", ".toList) p.flags) ("EI".toList) = true) ∧
    (videoHdLine ∈ typeAndFlagLines (escape p.progType) (pyJoinWith (", ".toList) p.flags) ↔
      containsSub (pyJoinWith (", ".toList) p.flags) ("HD".toList) = true) ∧
    (audioStereoLine ∈ typeAndFlagLines (escape p.progType) (pyJoinWith (", ".toList) p.flags) ↔
      containsSub (pyJoinWith (", ".toList) p.flags) ("Stereo".toList) = true) ∧
    (newMarkerLine ∈ typeAndFlagLines (escape p.progType) (pyJoinWith (", ".toList) p.flags) ↔
      containsSub (pyJoinWith (", ".toList) p.flags) ("New".toList) = true) ∧
    (∀ f ∈ p.flags, containsSub (pyJoinWith (", ".toList) p.flags) f = true) := by
  refine ⟨?_, ?_, ?_, ?_, ?_, ?_, ?_, fun f hf => containsSub_pyJoinWith _ _ f hf⟩
  · rw [mem_typeAndFlagLines]
    simp +decide
    exact escape_eq_of_plain 'M' (by decide) p.progType
  · rw [mem_typeAndFlagLines]
    simp +decide
    exact escape_eq_of_plain 'N' (by decide) p.progType
  · rw [mem_typeAndFlagLines]
    simp +decide
    exact escape_eq_of_plain 'S' (by decide) p.progType
  · rw [mem_typeAndFlagLines]
    simp +decide
  · rw [mem_typeAndFlagLines]
    simp +decide
  · rw [mem_typeAndFlagLines]
    simp +decide
  · rw [mem_typeAndFlagLines]
    simp +decide

/-- Witness for C4: a flag that IS in the list is found by the substring
test, so true positives are preserved. -/
theorem claim_C4_witness :
    containsSub (pyJoinWith (", ".toList) [("EI".toList : Str)]) ("EI".toList) = true :=
  (claim_C4_amended ⟨[], [], [], ["EI".toList], none, none⟩).2.2.2.2.2.2.2
    ("EI".toList) (by decide)

/-! ### Claim C6 -/

/-- A timezone with a fall-back transition (offset drops from −4h to −5h),
shaped like America/New_York on 2026-11-01 with times counted from that
day's midnight UTC: conversions of instants before 06:00Z attach −4h, and
wall readings from 02:00 on carry −5h. -/
def tzFallBack : Tz :=
  ⟨fun u => if u < 21600 then -14400 else -18000,
   fun w => if w < 7200 then -14400 else -18000⟩

/-- Claim C6 counterexample: a 60-minute program starting at 05:30Z (01:30
local, just before the fall-back) renders a stop timestamp that denotes
07:30Z — the stop instant is start + 120 minutes, not + 60 — because
Python's aware-datetime addition at line 121 is wall-clock addition and
`%z` re-derives the offset from the new wall time. -/
theorem claim_C6_counterexample :
    instantOfTs (stopTs tzFallBack 19800 60) ≠ 19800 + 60 * 60 := by decide

/-- Claim C6 (amended): for `runTimeMinutes = rt ≥ 0` the rendered stop
wall-clock equals the rendered start wall-clock plus `rt` minutes, so the
rendered stop timestamp is ≥ the rendered start timestamp with equality
exactly when `rt = 0`; the stop INSTANT equals the start instant plus `rt`
minutes whenever the UTC offset at the stop wall reading agrees with the
offset at the start wall reading (it can differ across a DST transition,
as the counterexample shows). -/
theorem claim_C6_amended (tz : Tz) (u rt : Int) (h : 0 ≤ rt) :
    (startTs tz u).wall ≤ (stopTs tz u rt).wall ∧
    (stopTs tz u rt).wall = (startTs tz u).wall + 60 * rt ∧
    (stopTs tz u rt = startTs tz u ↔ rt = 0) ∧
    (tz.offAtWall ((startTs tz u).wall + 60 * rt) = tz.offAtWall ((startTs tz u).wall) →
      instantOfTs (stopTs tz u rt) = instantOfTs (startTs tz u) + 60 * rt) := by
  refine ⟨?_, ?_, ⟨?_, ?_⟩, ?_⟩
  · simp only [startTs, stopTs]
    omega
  · simp [startTs, stopTs]
  · intro he
    have hw := congrArg RenderedTs.wall he
    simp only [startTs, stopTs] at hw
    omega
  · rintro rfl
    simp [startTs, stopTs]
  · intro hoff
    simp only [startTs, stopTs, instantOfTs] at hoff ⊢
    omega

/-- Witness for C6 at a zero-offset zone. -/
theorem claim_C6_witness :
    (stopTs tzUTC 0 30).wall = (startTs tzUTC 0).wall + 60 * 30 :=
  (claim_C6_amended tzUTC 0 30 (by decide)).2.1

/-! ### Claim C3 -/

/-- Claim C3 counterexample: with the system clock 2 hours ahead of UTC at
23:00Z of the epoch day (`sysNow = utcNow + 7200`), `datetime.now()` is
already on the next local date, so the formatted window start denotes the
NEXT day's 04:00Z rather than the current UTC day's 04:00Z: the boundary
is anchored to the system-local date, not to UTC. -/
theorem claim_C3_counterexample :
    windowStartInstant (82800 + 7200) 0 ≠ utcWindowStart 82800 0 := by decide

/-- Claim C3 (amended): the grid window is computed from the system-local
date of `datetime.now()` with the time-of-day a literal `04:00`/`03:59`
`Z`-suffixed string; it takes no input from the configured display
timezone, and it agrees with the UTC-anchored values the claim states
exactly when the system-local date equals the UTC date; each day's end is
60 seconds before the next day's start. -/
theorem claim_C3_amended (sysNow utcNow : Int) (d : Nat)
    (h : sysNow / 86400 = utcNow / 86400) :
    windowStartInstant sysNow d = utcWindowStart utcNow d ∧
    windowEndInstant sysNow d = utcWindowEnd utcNow d ∧
    windowEndInstant sysNow d = windowStartInstant sysNow (d + 1) - 60 ∧
    windowStartStr sysNow d =
      fmtDate (utcNow / 86400 + (d : Int)) ++ "T04:00:00.000Z".toList ∧
    windowEndStr sysNow d =
      fmtDate (utcNow / 86400 + (d : Int) + 1) ++ "T03:59:00.000Z".toList := by
  have h1 : (sysNow + 86400 * (d : Int)) / 86400 = utcNow / 86400 + (d : Int) := by omega
  have h2 : (sysNow + 86400 * ((d : Int) + 1)) / 86400 = utcNow / 86400 + (d : Int) + 1 := by
    omega
  refine ⟨?_, ?_, ?_, ?_, ?_⟩
  · simp only [windowStartInstant, utcWindowStart, h1]
  · simp only [windowEndInstant, utcWindowEnd, h2]
  · simp only [windowEndInstant, windowStartInstant]
    push_cast
    omega
  · simp only [windowStartStr, h1]
  · simp only [windowEndStr, h2]

/-- Witness for C3 when system clock and UTC share a date. -/
theorem claim_C3_witness : windowStartInstant 3600 1 = utcWindowStart 7200 1 :=
  (claim_C3_amended 3600 7200 1 (by decide)).1

/-! ### Helper lemmas about `chunk20` -/

/-- `chunkGo` does not depend on the fuel once it bounds the length. -/
theorem chunkGo_congr {α : Type} :
    ∀ (f1 f2 : Nat) (l : List α), l.length ≤ f1 → l.length ≤ f2 →
      chunkGo f1 l = chunkGo f2 l
  | f1, f2, [], _, _ => by cases f1 <;> cases f2 <;> rfl
  | 0, _, a :: rest, h1, _ => absurd h1 (by simp)
  | _ + 1, 0, a :: rest, _, h2 => absurd h2 (by simp)
  | g1 + 1, g2 + 1, a :: rest, h1, h2 => by
    simp only [List.length_cons] at h1 h2
    simp only [chunkGo]
    rw [chunkGo_congr g1 g2 (rest.drop 19)
      (by simp only [List.length_drop]; omega) (by simp only [List.length_drop]; omega)]

theorem chunk20_nil {α : Type} : chunk20 ([] : List α) = [] := rfl

theorem chunk20_cons {α : Type} (a : α) (rest : List α) :
    chunk20 (a :: rest) = (a :: rest.take 19) :: chunk20 (rest.drop 19) := by
  show chunkGo (rest.length + 1) (a :: rest) = _
  simp only [chunkGo]
  rw [chunkGo_congr rest.length (rest.drop 19).length (rest.drop 19)
    (by simp only [List.length_drop]; omega) (le_refl _)]
  rfl

/-- The batches concatenate back to the original list, in order. -/
theorem chunk20_flatten {α : Type} : ∀ l : List α, (chunk20 l).flatten = l
  | [] => rfl
  | a :: rest => by
    rw [chunk20_cons, List.flatten_cons, chunk20_flatten (rest.drop 19)]
    simp [List.take_append_drop]
termination_by l => l.length
decreasing_by simp only [List.length_drop, List.length_cons]; omega

/-- The number of batches is the ceiling of `n / 20`. -/
theorem chunk20_length {α : Type} : ∀ l : List α, (chunk20 l).length = (l.length + 19) / 20
  | [] => by simp only [chunk20, chunkGo, List.length_nil]
  | a :: rest => by
    rw [chunk20_cons]
    simp only [List.length_cons, chunk20_length (rest.drop 19), List.length_drop]
    omega
termination_by l => l.length
decreasing_by simp only [List.length_drop, List.length_cons]; omega

/-- Every batch holds at most 20 ids. -/
theorem chunk20_mem_le {α : Type} : ∀ (l : List α) (b : List α), b ∈ chunk20 l → b.length ≤ 20
  | [], b, hb => absurd hb (by simp [chunk20_nil])
  | a :: rest, b, hb => by
    rw [chunk20_cons] at hb
    rcases List.mem_cons.mp hb with rfl | hb
    · have := List.length_take_le 19 rest
      simp only [List.length_cons]
      omega
    · exact chunk20_mem_le (rest.drop 19) b hb
termination_by l _ _ => l.length
decreasing_by simp only [List.length_drop, List.length_cons]; omega

/-! ### Claim C7 -/

/-- Claim C7: the channel-id list is split in order into `⌈n/20⌉` batches
of at most 20 ids each, one grid request is issued per batch, and for 45
channels there are exactly 3 batches of sizes 20, 20 and 5. -/
theorem claim_C7 (lineupId : Str) (sysNow : Int) (d : Nat) (ids : List Str) :
    (dayRequests lineupId sysNow d ids).length = (chunk20 ids).length ∧
    (chunk20 ids).length = (ids.length + 19) / 20 ∧
    (∀ b ∈ chunk20 ids, b.length ≤ 20) ∧
    (chunk20 ids).flatten = ids ∧
    (chunk20 (List.replicate 45 ([] : Str))).map List.length = [20, 20, 5] := by
  exact ⟨by simp [dayRequests], chunk20_length ids,
    fun b hb => chunk20_mem_le ids b hb, chunk20_flatten ids, by decide⟩

/-- Witness for C7: the first batch of 45 ids has length (at most) 20. -/
theorem claim_C7_witness : (List.replicate 20 ([] : Str)).length ≤ 20 :=
  (claim_C7 [] 0 0 (List.replicate 45 [])).2.2.1 (List.replicate 20 []) (by decide)

/-! ### Helper lemmas for the assembler -/

theorem mergeBatches_of_all_failed (bs : List (Option (List (List Program))))
    (h : ∀ b ∈ bs, b = none) : mergeBatches bs = [] := by
  induction bs with
  | nil => rfl
  | cons b rest ih =>
    have hb : b = none := h b (List.mem_cons_self b rest)
    have ht : mergeBatches rest = [] := ih fun x hx => h x (List.mem_cons_of_mem b hx)
    subst hb
    simp only [mergeBatches, List.flatMap_cons, Option.getD_none, List.nil_append] at ht ⊢
    exact ht

theorem dayLines_of_all_failed (tz : Tz) (lineup : List Channel)
    (bs : List (Option (List (List Program)))) (h : ∀ b ∈ bs, b = none) :
    dayLines tz lineup bs = .ok [] := by
  simp [dayLines, mergeBatches_of_all_failed bs h, dayPairs, List.zip_nil_right, processPairs]

/-- A day whose batches all failed drops out of the guide without touching
any other day. -/
theorem guideLines_skip_failed (tz : Tz) (lineup : List Channel)
    (pre post : List (List (Option (List (List Program)))))
    (fb : List (Option (List (List Program)))) (h : ∀ b ∈ fb, b = none) :
    guideLines tz lineup (pre ++ fb :: post) = guideLines tz lineup (pre ++ post) := by
  induction pre with
  | nil =>
    simp only [List.nil_append, guideLines, dayLines_of_all_failed tz lineup fb h]
    cases hg : guideLines tz lineup post <;> rfl
  | cons dd rest ih =>
    simp only [List.cons_append, guideLines, List.append_eq, ih]

theorem mergeBatches_eq_filterMap (bs : List (Option (List (List Program)))) :
    mergeBatches bs = (bs.filterMap id).flatten := by
  induction bs with
  | nil => rfl
  | cons b rest ih =>
    cases b <;> simp [mergeBatches, List.filterMap_cons, List.flatten_cons, ih] <;>
      simp [mergeBatches] at ih <;> exact ih

/-! ### Claim C2 -/

/-- Claim C2: a failed batch contributes no entries while the rest of the
day's batches do (the merged listing is the concatenation of the
successful batches' arrays, in order); a day whose batches all failed
contributes zero programme lines and every other day is emitted
unchanged; pairing matches lineup index `i` with merged-grid index `i` and
stops at the shorter of the two lists instead of erroring. -/
theorem claim_C2 (tz : Tz) (lineup : List Channel)
    (pre post : List (List (Option (List (List Program)))))
    (fb : List (Option (List (List Program))))
    (listing : List (List Program))
    (hfb : ∀ b ∈ fb, b = none) :
    dayLines tz lineup fb = .ok [] ∧
    guideLines tz lineup (pre ++ fb :: post) = guideLines tz lineup (pre ++ post) ∧
    (∀ bs : List (Option (List (List Program))),
      mergeBatches bs = (bs.filterMap id).flatten) ∧
    (dayPairs lineup listing).length = min lineup.length listing.length ∧
    (∀ i (h1 : i < lineup.length) (h2 : i < listing.length),
      (dayPairs lineup listing)[i]? = some (lineup[i], listing[i])) := by
  refine ⟨dayLines_of_all_failed tz lineup fb hfb,
    guideLines_skip_failed tz lineup pre post fb hfb,
    mergeBatches_eq_filterMap, by simp [dayPairs, List.length_zip], ?_⟩
  intro i h1 h2
  have hz : i < (dayPairs lineup listing).length := by
    simp only [dayPairs, List.length_zip]
    omega
  rw [List.getElem?_eq_getElem hz]
  simp [dayPairs, List.getElem_zip]

/-- Witness for C2: two failed batches make an empty day. -/
theorem claim_C2_witness : dayLines tzUTC [] [none, none] = .ok [] :=
  (claim_C2 tzUTC [] [] [] [none, none] [] (by decide)).1

/-! ### Claims C8 and C10 -/

/-- Claim C8: if the lineup fetch yields no data the run still writes the
wrapper-only document and exits 1 (lines 55-64); otherwise — provided the
programme processing raises nothing uncaught — the run exits 0 after
writing the full document, whatever the grid fetch results were, and exits
1 exactly when the final write fails (lines 150-159). -/
theorem claim_C8 (tz : Tz) (days : Nat) (nowStr : Str) (env : Env)
    (lineup : List Channel) (progLines : List Str)
    (h1 : env.tzFound = true)
    (h2 : env.lineupData = some lineup)
    (h3 : lineup ≠ [])
    (h4 : runGuide tz env lineup (min days 8) = .ok progLines) :
    run tz days nowStr {env with lineupData := none} =
      .exitWith 1 (if env.wrapperWriteOk then some (wrapperLines nowStr) else none) ∧
    run tz days nowStr env =
      (if env.finalWriteOk then
        .exitWith 0 (some ([xmlDecl, tvOpen nowStr] ++ lineup.flatMap renderChannel ++
          progLines ++ [tvClose]))
       else .exitWith 1 none) := by
  constructor
  · simp [run, h1, pyTruthyList]
  · obtain ⟨c, rest, rfl⟩ : ∃ c rest, lineup = c :: rest := by
      cases lineup with
      | nil => exact absurd rfl h3
      | cons c rest => exact ⟨c, rest, rfl⟩
    simp only [run, h1, h2, pyTruthyList, h4, Bool.true_eq_false, if_false]

/-- A concrete lineup channel for witnesses. -/
def chanA : Channel := ⟨"1001".toList, "5.1".toList, "WXYZ".toList, []⟩

/-- An environment where everything works but every grid fetch fails. -/
def envA : Env := ⟨true, some [chanA], fun _ _ => none, true, true⟩

/-- Witness for C8: with every grid fetch failing, the run still exits 0
with the full (programme-free) document. -/
theorem claim_C8_witness :
    run tzUTC 1 ("2024".toList) envA =
      (if envA.finalWriteOk then
        .exitWith 0 (some ([xmlDecl, tvOpen ("2024".toList)] ++
          [chanA].flatMap renderChannel ++ [] ++ [tvClose]))
       else .exitWith 1 none) :=
  (claim_C8 tzUTC 1 ("2024".toList) envA [chanA] [] rfl rfl (by simp) rfl).2

/-- Claim C10: a successful lineup fetch returning an empty array (or any
falsy JSON value, modelled as `none`) behaves exactly like a fetch
failure: wrapper-only document, exit status 1. -/
theorem claim_C10 (tz : Tz) (days : Nat) (nowStr : Str) (env : Env) :
    run tz days nowStr {env with lineupData := some []} =
      run tz days nowStr {env with lineupData := none} ∧
    run tz days nowStr
        {env with tzFound := true, lineupData := some [], wrapperWriteOk := true} =
      .exitWith 1 (some (wrapperLines nowStr)) := by
  constructor
  · cases h : env.tzFound <;> simp [run, h, pyTruthyList]
  · simp [run, pyTruthyList]

/-! ### Claim C9 -/

/-- A fully well-formed movie record. -/
def pGoodA : Program :=
  ⟨"A".toList, [], "M".toList, [],
    some (.str "2024-05-01T12:00:00Z".toList), some (.num 30)⟩

/-- A fully well-formed news record with a subtitle and an HD flag. -/
def pGoodB : Program :=
  ⟨"B".toList, "ep".toList, "N".toList, ["HD".toList],
    some (.str "2024-05-01T13:00:00Z".toList), some (.num 60)⟩

/-- startTime present but JSON null: `program['startTime'].replace(...)`
raises `AttributeError`, which is NOT in the caught tuple of line 146. -/
def pStartNull : Program := ⟨"C".toList, [], [], [], some .null, some (.num 30)⟩

/-- startTime key absent: `program['startTime']` raises `KeyError` (caught). -/
def pStartMissing : Program := ⟨"D".toList, [], [], [], none, some (.num 30)⟩

/-- startTime an unparsable string: `fromisoformat` raises `ValueError`
(caught). -/
def pStartGarbled : Program :=
  ⟨"E".toList, [], [], [], some (.str "not-a-time".toList), some (.num 30)⟩

/-- runTime a non-numeric string: `int(...)` raises `ValueError` (caught). -/
def pRunBad : Program :=
  ⟨"F".toList, [], [], [],
    some (.str "2024-05-01T14:00:00Z".toList), some (.str "abc".toList)⟩

/-- An otherwise healthy environment whose grid contains one null-startTime
record. -/
def envCrash : Env := ⟨true, some [chanA], fun _ _ => some [[pStartNull]], true, true⟩

/-- Claim C9 evaluation: records with a missing startTime, an unparsable
startTime string, or a non-numeric runtime are caught and skipped with
zero lines, siblings unaffected — but a record whose startTime is JSON
null raises `AttributeError`, which the except clause does not catch: the
slice, the day loop and the whole run abort, and no output file is
written. -/
theorem claim_C9_eval :
    renderProgramme tzUTC ("5.1".toList) pStartNull = .error .attributeError ∧
    caught .attributeError = false ∧
    processSlice tzUTC ("5.1".toList) [pGoodA, pStartNull, pGoodB] = .error .attributeError ∧
    processSlice tzUTC ("5.1".toList) [pStartMissing, pStartGarbled, pRunBad] = .ok [] ∧
    processSlice tzUTC ("5.1".toList) [pGoodA, pStartMissing, pGoodB] =
      processSlice tzUTC ("5.1".toList) [pGoodA, pGoodB] ∧
    run tzUTC 1 ("2024".toList) envCrash = .crash .attributeError := by
  exact ⟨rfl, rfl, rfl, rfl, rfl, rfl⟩

end Tvtv
